import Mathlib

/-
Shallow embedding of the solana-guard-escrow program
(src/programs/solana-guard-escrow/src/{lib.rs, state.rs, errors.rs}).

Identities (public keys) are natural numbers compared by equality; lamport
balances are naturals (u64 saturating subtraction coincides with Nat
subtraction on the values in range); timestamps and durations are integers
(i64). Each instruction handler becomes a pure function from the escrow
record plus its explicit inputs (caller identity, clock, account balances)
to an `Except` of the updated record and ledger effect.
-/

/-- Identities (public keys) are modelled as natural numbers compared by equality. -/
abbrev Pubkey := Nat

/-- Escrow lifecycle states (state.rs, `EscrowState`). -/
inductive EscrowState where
  | Created
  | Funded
  | Released
  | Refunded
  | Cancelled
  deriving DecidableEq, Repr

/-- Escrow account record (state.rs, `Escrow`). -/
structure Escrow where
  buyer : Pubkey
  seller : Pubkey
  arbiter : Option Pubkey
  amount : Nat
  created_at : Int
  timeout_period : Int
  state : EscrowState
  bump : Nat
  deriving DecidableEq, Repr

/-- Error codes (errors.rs, `EscrowError`). -/
inductive EscrowError where
  | EscrowAlreadyFunded
  | EscrowNotFunded
  | UnauthorizedOperation
  | InvalidAmount
  | TimeoutNotReached
  | InvalidState
  | InvalidTimeout
  deriving DecidableEq, Repr

/-- Errors an instruction can surface: the program's escrow errors plus the
two external failure modes the handlers rely on — the Anchor `has_one = buyer`
account constraint of `FundEscrow`, and the system-program transfer failing on
insufficient funds. -/
inductive ProgError where
  | escrowErr : EscrowError → ProgError
  | constraintHasOne : ProgError
  | insufficientFunds : ProgError
  deriving DecidableEq, Repr

deriving instance DecidableEq for Except

/-- `escrow.arbiter.map_or(false, |a| caller == a)` from lib.rs. -/
def arbiterMatches (arb : Option Pubkey) (caller : Pubkey) : Bool :=
  match arb with
  | none => false
  | some a => caller == a

/-- `initialize_escrow` (lib.rs lines 17-48): validates `amount > 0` then
`timeout_period > 0`, normalizes an arbiter equal to the buyer to `none`, and
writes the fresh record in state `Created`. -/
def initialize_escrow (buyer seller arbiter : Pubkey) (amount : Nat)
    (timeout_period : Int) (now : Int) (bump : Nat) : Except ProgError Escrow :=
  if 0 < amount then
    if 0 < timeout_period then
      .ok { buyer := buyer
            seller := seller
            arbiter := if arbiter = buyer then none else some arbiter
            amount := amount
            created_at := now
            timeout_period := timeout_period
            state := EscrowState.Created
            bump := bump }
    else .error (.escrowErr .InvalidTimeout)
  else .error (.escrowErr .InvalidAmount)

/-- Result of a successful `fund_escrow`: the updated record, the buyer's
remaining balance and the custody (escrow PDA) balance. -/
structure FundResult where
  escrow : Escrow
  buyerBalance : Nat
  custodyBalance : Nat
  deriving DecidableEq, Repr

/-- `fund_escrow` (lib.rs lines 51-75): Anchor first enforces the
`has_one = buyer` constraint of the `FundEscrow` accounts struct (the signing
mover must be the recorded buyer); the handler then requires state `Created`
and the system program moves `amount` lamports from the buyer to the escrow
PDA, failing on insufficient funds. -/
def fund_escrow (e : Escrow) (mover : Pubkey) (buyerBalance custodyBalance : Nat) :
    Except ProgError FundResult :=
  if mover = e.buyer then
    if e.state = EscrowState.Created then
      if e.amount ≤ buyerBalance then
        .ok ⟨{ e with state := EscrowState.Funded },
             buyerBalance - e.amount, custodyBalance + e.amount⟩
      else .error .insufficientFunds
    else .error (.escrowErr .InvalidState)
  else .error .constraintHasOne

/-- Result of a successful release/refund: the updated record, the remaining
custody balance, the account credited and the amount credited to it. -/
structure TransferResult where
  escrow : Escrow
  custodyBalance : Nat
  recipient : Pubkey
  credited : Nat
  deriving DecidableEq, Repr

/-- The `is_authorized` predicate of `release_to_seller` (lib.rs lines 95-97):
buyer always, arbiter if set, seller once `now - created_at >= timeout_period`. -/
def releaseAuthorized (e : Escrow) (caller : Pubkey) (now : Int) : Bool :=
  caller == e.buyer
    || arbiterMatches e.arbiter caller
    || (caller == e.seller && decide (now - e.created_at ≥ e.timeout_period))

/-- `release_to_seller` (lib.rs lines 79-115): requires state `Funded` and an
authorized caller, then credits `custody_balance.saturating_sub(rent)` to the
account passed in the `seller` slot of `ReleaseToSeller` — an account that
carries no constraint tying it to the recorded seller — and moves the record
to `Released`. -/
def release_to_seller (e : Escrow) (sellerAcct caller : Pubkey) (now : Int)
    (custodyBalance rent : Nat) : Except ProgError TransferResult :=
  if e.state = EscrowState.Funded then
    if releaseAuthorized e caller now then
      let transfer_amount := custodyBalance - rent
      .ok ⟨{ e with state := EscrowState.Released },
           custodyBalance - transfer_amount, sellerAcct, transfer_amount⟩
    else .error (.escrowErr .UnauthorizedOperation)
  else .error (.escrowErr .EscrowNotFunded)

/-- The `is_authorized` predicate of `refund_to_buyer` (lib.rs lines 131-133):
seller, arbiter if set, or buyer — the buyer unconditionally. -/
def refundAuthorized (e : Escrow) (caller : Pubkey) : Bool :=
  caller == e.seller || arbiterMatches e.arbiter caller || caller == e.buyer

/-- `refund_to_buyer` (lib.rs lines 118-152): requires state `Funded` and an
authorized caller, then credits `custody_balance.saturating_sub(rent)` to the
account passed in the `buyer` slot of `RefundToBuyer` — an account that
carries no constraint tying it to the recorded buyer — and moves the record
to `Refunded`. -/
def refund_to_buyer (e : Escrow) (buyerAcct caller : Pubkey)
    (custodyBalance rent : Nat) : Except ProgError TransferResult :=
  if e.state = EscrowState.Funded then
    if refundAuthorized e caller then
      let transfer_amount := custodyBalance - rent
      .ok ⟨{ e with state := EscrowState.Refunded },
           custodyBalance - transfer_amount, buyerAcct, transfer_amount⟩
    else .error (.escrowErr .UnauthorizedOperation)
  else .error (.escrowErr .EscrowNotFunded)

/-- `cancel_escrow` (lib.rs lines 155-172): permitted only in state `Created`
(rejecting with `EscrowAlreadyFunded` otherwise), by the buyer or the seller. -/
def cancel_escrow (e : Escrow) (caller : Pubkey) : Except ProgError Unit :=
  if e.state = EscrowState.Created then
    if caller == e.buyer || caller == e.seller then .ok ()
    else .error (.escrowErr .UnauthorizedOperation)
  else .error (.escrowErr .EscrowAlreadyFunded)

/-- Boolean success test for an instruction result. -/
def opOk {α : Type} : Except ProgError α → Bool
  | .ok _ => true
  | .error _ => false

/-- A freshly created escrow record: buyer 1, seller 2, no arbiter,
amount 5, created at time 0, timeout 100 seconds. -/
def escrowC : Escrow :=
  { buyer := 1, seller := 2, arbiter := none, amount := 5,
    created_at := 0, timeout_period := 100,
    state := EscrowState.Created, bump := 0 }

/-- A funded escrow record: buyer 1, seller 2, no arbiter, amount 500,
created at time 0, timeout 3600 seconds. -/
def escrowF : Escrow :=
  { buyer := 1, seller := 2, arbiter := none, amount := 500,
    created_at := 0, timeout_period := 3600,
    state := EscrowState.Funded, bump := 0 }

/-- A released (terminal) escrow record. -/
def escrowR : Escrow :=
  { buyer := 1, seller := 2, arbiter := none, amount := 500,
    created_at := 0, timeout_period := 3600,
    state := EscrowState.Released, bump := 0 }

/-- C1: the code credits the movable balance to whatever account is passed in
the recipient slot, not to the recorded counterparty. With the funded escrow
(buyer 1, seller 2), the buyer releases passing account 99 as `seller`: the
900 movable lamports are credited to 99, not to the recorded seller 2; and
the seller refunds passing account 77 as `buyer`: 900 lamports are credited
to 77, not to the recorded buyer 1. -/
theorem release_refund_recipient_unchecked :
    release_to_seller escrowF 99 1 0 1000 100 =
      .ok ⟨{ escrowF with state := EscrowState.Released }, 100, 99, 900⟩ ∧
    (99 : Pubkey) ≠ escrowF.seller ∧
    refund_to_buyer escrowF 77 2 1000 100 =
      .ok ⟨{ escrowF with state := EscrowState.Refunded }, 100, 77, 900⟩ ∧
    (77 : Pubkey) ≠ escrowF.buyer := by
  decide

/-- C4 counterexample: with custody balance 5 below the minimum reserve 10, a
release by the buyer succeeds crediting 0 and leaves the custody account at
5, strictly below the reserve 10 — the account is left below `r`. -/
theorem transfer_below_reserve_cex :
    release_to_seller escrowF 2 1 0 5 10 =
      .ok ⟨{ escrowF with state := EscrowState.Released }, 5, 2, 0⟩ ∧
    (5 : Nat) < 10 := by
  decide

/-- C9 counterexample: with amount 0 and timeout -1 both invalid, create fails
with `InvalidAmount` (amount is validated first), not with `InvalidTimeout`
as the claim requires for every `timeout_period ≤ 0`. -/
theorem create_invalid_both_cex :
    initialize_escrow 1 2 3 0 (-1) 0 0 = .error (.escrowErr .InvalidAmount) ∧
    initialize_escrow 1 2 3 0 (-1) 0 0 ≠ .error (.escrowErr .InvalidTimeout) := by
  decide

/-- The release authorization boolean holds exactly on the three spec clauses. -/
theorem releaseAuthorized_iff (e : Escrow) (caller : Pubkey) (now : Int) :
    releaseAuthorized e caller now = true ↔
      (caller = e.buyer ∨ (∃ a, e.arbiter = some a ∧ caller = a) ∨
        (caller = e.seller ∧ now - e.created_at ≥ e.timeout_period)) := by
  cases h : e.arbiter <;>
    simp [releaseAuthorized, arbiterMatches, h, or_assoc]

/-- The refund authorization boolean holds exactly on the three spec clauses. -/
theorem refundAuthorized_iff (e : Escrow) (caller : Pubkey) :
    refundAuthorized e caller = true ↔
      (caller = e.seller ∨ (∃ a, e.arbiter = some a ∧ caller = a) ∨
        caller = e.buyer) := by
  cases h : e.arbiter <;>
    simp [refundAuthorized, arbiterMatches, h, or_assoc]

/-- C2: on a Funded escrow, release succeeds exactly when the caller is the
buyer, or equals the set arbiter, or is the seller with
`now - created_at ≥ timeout_period`; every other caller is rejected with
`UnauthorizedOperation`. -/
theorem release_auth_guard (e : Escrow) (sa caller : Pubkey) (now : Int)
    (b r : Nat) (hf : e.state = EscrowState.Funded) :
    (opOk (release_to_seller e sa caller now b r) = true ↔
      (caller = e.buyer ∨ (∃ a, e.arbiter = some a ∧ caller = a) ∨
        (caller = e.seller ∧ now - e.created_at ≥ e.timeout_period))) ∧
    (¬ (caller = e.buyer ∨ (∃ a, e.arbiter = some a ∧ caller = a) ∨
        (caller = e.seller ∧ now - e.created_at ≥ e.timeout_period)) →
      release_to_seller e sa caller now b r =
        .error (.escrowErr .UnauthorizedOperation)) := by
  constructor
  · rw [← releaseAuthorized_iff e caller now]
    by_cases hA : releaseAuthorized e caller now <;>
      simp [release_to_seller, hf, hA, opOk]
  · rw [← releaseAuthorized_iff e caller now]
    intro hn
    simp only [Bool.not_eq_true] at hn
    simp [release_to_seller, hf, hn]

/-- C2 witness: on the concrete funded escrow (buyer 1, seller 2, no arbiter),
caller 7 is rejected with `UnauthorizedOperation`. -/
theorem release_auth_guard_witness :
    release_to_seller escrowF 2 7 0 1000 100 =
      .error (.escrowErr .UnauthorizedOperation) :=
  (release_auth_guard escrowF 2 7 0 1000 100 (by decide)).2 (by simp [escrowF])

/-- C3: on a Funded escrow, refund succeeds exactly when the caller is the
seller, the set arbiter, or the buyer (unconditionally), and is rejected with
`UnauthorizedOperation` for every other caller; refund on a Created escrow
fails with `EscrowNotFunded`. -/
theorem refund_auth_guard (e : Escrow) (ba caller : Pubkey) (b r : Nat) :
    (e.state = EscrowState.Funded →
      (opOk (refund_to_buyer e ba caller b r) = true ↔
        (caller = e.seller ∨ (∃ a, e.arbiter = some a ∧ caller = a) ∨
          caller = e.buyer)) ∧
      (¬ (caller = e.seller ∨ (∃ a, e.arbiter = some a ∧ caller = a) ∨
          caller = e.buyer) →
        refund_to_buyer e ba caller b r =
          .error (.escrowErr .UnauthorizedOperation))) ∧
    (e.state = EscrowState.Created →
      refund_to_buyer e ba caller b r = .error (.escrowErr .EscrowNotFunded)) := by
  constructor
  · intro hf
    constructor
    · rw [← refundAuthorized_iff e caller]
      by_cases hA : refundAuthorized e caller <;>
        simp [refund_to_buyer, hf, hA, opOk]
    · rw [← refundAuthorized_iff e caller]
      intro hn
      simp only [Bool.not_eq_true] at hn
      simp [refund_to_buyer, hf, hn]
  · intro hc
    simp [refund_to_buyer, hc]

/-- C3 witness: on the concrete funded escrow, caller 5 is rejected with
`UnauthorizedOperation`; on the concrete created escrow, refund by the buyer
fails with `EscrowNotFunded`. -/
theorem refund_auth_guard_witness :
    refund_to_buyer escrowF 1 5 1000 100 =
      .error (.escrowErr .UnauthorizedOperation) ∧
    refund_to_buyer escrowC 1 1 1000 100 =
      .error (.escrowErr .EscrowNotFunded) :=
  ⟨((refund_auth_guard escrowF 1 5 1000 100).1 (by decide)).2 (by simp [escrowF]),
   (refund_auth_guard escrowC 1 1 1000 100).2 (by decide)⟩

/-- Shape of every successful release: it credits `custody - rent` and
leaves the custody account at `custody - (custody - rent)`. -/
theorem release_ok_shape (e : Escrow) (sa caller : Pubkey) (now : Int)
    (b r : Nat) (res : TransferResult)
    (h : release_to_seller e sa caller now b r = .ok res) :
    res.credited = b - r ∧ res.custodyBalance = b - (b - r) := by
  simp only [release_to_seller] at h
  split at h
  · split at h
    · injection h with h
      subst h
      exact ⟨rfl, rfl⟩
    · exact Except.noConfusion h
  · exact Except.noConfusion h

/-- Shape of every successful refund: it credits `custody - rent` and
leaves the custody account at `custody - (custody - rent)`. -/
theorem refund_ok_shape (e : Escrow) (ba caller : Pubkey)
    (b r : Nat) (res : TransferResult)
    (h : refund_to_buyer e ba caller b r = .ok res) :
    res.credited = b - r ∧ res.custodyBalance = b - (b - r) := by
  simp only [refund_to_buyer] at h
  split at h
  · split at h
    · injection h with h
      subst h
      exact ⟨rfl, rfl⟩
    · exact Except.noConfusion h
  · exact Except.noConfusion h

/-- C4 (amended): every successful release and refund credits exactly
`custody_balance - rent` under saturating subtraction — `max 0 (b - r)` over
the integers — with the same formula in both paths; the credited amount never
exceeds the custody balance, and the custody account is left holding
`min b r`, hence at least the reserve `r` whenever it held at least `r`
before the transfer. -/
theorem transfer_amount_saturating (e : Escrow) (acct caller : Pubkey)
    (now : Int) (b r : Nat) (res res2 : TransferResult)
    (h1 : release_to_seller e acct caller now b r = .ok res)
    (h2 : refund_to_buyer e acct caller b r = .ok res2) :
    res.credited = b - r ∧ res2.credited = res.credited ∧
    (res.credited : Int) = max 0 ((b : Int) - (r : Int)) ∧
    res.credited ≤ b ∧
    res.custodyBalance = min b r ∧ res2.custodyBalance = min b r ∧
    (r ≤ b → r ≤ res.custodyBalance) := by
  obtain ⟨hc1, hb1⟩ := release_ok_shape e acct caller now b r res h1
  obtain ⟨hc2, hb2⟩ := refund_ok_shape e acct caller b r res2 h2
  refine ⟨hc1, ?_, ?_, ?_, ?_, ?_, ?_⟩ <;> omega

/-- C4 witness: on the concrete funded escrow with custody 1000 and reserve
100, release and refund by the buyer both credit 900 = 1000 - 100 and leave
the custody account at min 1000 100 = 100 ≥ 100. -/
theorem transfer_amount_saturating_witness :
    (900 : Nat) = 1000 - 100 ∧ (900 : Nat) = 900 ∧
    ((900 : Nat) : Int) = max 0 ((1000 : Nat) - ((100 : Nat) : Int)) ∧
    (900 : Nat) ≤ 1000 ∧
    (100 : Nat) = min 1000 100 ∧ (100 : Nat) = min 1000 100 ∧
    ((100 : Nat) ≤ 1000 → (100 : Nat) ≤ 100) :=
  transfer_amount_saturating escrowF 2 1 0 1000 100
    ⟨{ escrowF with state := EscrowState.Released }, 100, 2, 900⟩
    ⟨{ escrowF with state := EscrowState.Refunded }, 100, 2, 900⟩
    (by decide) (by decide)

/-- C5: once a record is in a terminal state (Released, Refunded or
Cancelled), every operation fails: fund never succeeds (with `InvalidState`
when attempted by the recorded buyer), release and refund fail with
`EscrowNotFunded`, and cancel fails with `EscrowAlreadyFunded`; as each
operation is a pure function returning an error, the stored record is
unchanged. -/
theorem terminal_no_exit (e : Escrow)
    (h : e.state = EscrowState.Released ∨ e.state = EscrowState.Refunded ∨
      e.state = EscrowState.Cancelled) :
    (∀ mover bb cb, opOk (fund_escrow e mover bb cb) = false) ∧
    (∀ bb cb, fund_escrow e e.buyer bb cb = .error (.escrowErr .InvalidState)) ∧
    (∀ sa caller now b r, release_to_seller e sa caller now b r =
      .error (.escrowErr .EscrowNotFunded)) ∧
    (∀ ba caller b r, refund_to_buyer e ba caller b r =
      .error (.escrowErr .EscrowNotFunded)) ∧
    (∀ caller, cancel_escrow e caller =
      .error (.escrowErr .EscrowAlreadyFunded)) := by
  have hC : ¬ e.state = EscrowState.Created := by
    rcases h with h | h | h <;> simp [h]
  have hF : ¬ e.state = EscrowState.Funded := by
    rcases h with h | h | h <;> simp [h]
  refine ⟨?_, ?_, ?_, ?_, ?_⟩
  · intro mover bb cb
    by_cases hm : mover = e.buyer <;> simp [fund_escrow, hm, hC, opOk]
  · intro bb cb
    simp [fund_escrow, hC]
  · intro sa caller now b r
    simp [release_to_seller, hF]
  · intro ba caller b r
    simp [refund_to_buyer, hF]
  · intro caller
    simp [cancel_escrow, hC]

/-- C5 witness: on the concrete released escrow, cancel by the buyer fails
with `EscrowAlreadyFunded`. -/
theorem terminal_no_exit_witness :
    cancel_escrow escrowR 1 = .error (.escrowErr .EscrowAlreadyFunded) :=
  (terminal_no_exit escrowR (Or.inl rfl)).2.2.2.2 1

/-- C7: cancel succeeds exactly on a Created escrow called by the buyer or
the seller; on any other state it fails with `EscrowAlreadyFunded`, and on a
Created escrow with any other caller it fails with `UnauthorizedOperation`. -/
theorem cancel_guards (e : Escrow) (caller : Pubkey) :
    (opOk (cancel_escrow e caller) = true ↔
      (e.state = EscrowState.Created ∧
        (caller = e.buyer ∨ caller = e.seller))) ∧
    (¬ e.state = EscrowState.Created →
      cancel_escrow e caller = .error (.escrowErr .EscrowAlreadyFunded)) ∧
    (e.state = EscrowState.Created → ¬ caller = e.buyer → ¬ caller = e.seller →
      cancel_escrow e caller = .error (.escrowErr .UnauthorizedOperation)) := by
  refine ⟨?_, ?_, ?_⟩
  · by_cases hs : e.state = EscrowState.Created
    · by_cases hc : caller = e.buyer ∨ caller = e.seller <;>
        simp [cancel_escrow, hs, hc, opOk]
    · simp [cancel_escrow, hs, opOk]
  · intro hs
    simp [cancel_escrow, hs]
  · intro hs hb hsl
    simp [cancel_escrow, hs, hb, hsl]

/-- C7 witness: on the concrete created escrow, caller 9 (neither buyer 1 nor
seller 2) is rejected with `UnauthorizedOperation`, and on the concrete
funded escrow cancel fails with `EscrowAlreadyFunded`. -/
theorem cancel_guards_witness :
    cancel_escrow escrowC 9 = .error (.escrowErr .UnauthorizedOperation) ∧
    cancel_escrow escrowF 1 = .error (.escrowErr .EscrowAlreadyFunded) :=
  ⟨(cancel_guards escrowC 9).2.2 (by decide) (by decide) (by decide),
   (cancel_guards escrowF 1).2.1 (by decide)⟩

/-- C8: fund succeeds only when the record is in state Created and the mover
is the recorded buyer; when the recorded buyer moves on a non-Created record
the failure is `InvalidState`; and every successful fund yields state Funded
with the custody balance increased by exactly the recorded amount. -/
theorem fund_guards (e : Escrow) (mover : Pubkey) (bb cb : Nat) :
    (opOk (fund_escrow e mover bb cb) = true →
      e.state = EscrowState.Created ∧ mover = e.buyer) ∧
    (mover = e.buyer → ¬ e.state = EscrowState.Created →
      fund_escrow e mover bb cb = .error (.escrowErr .InvalidState)) ∧
    (∀ fr, fund_escrow e mover bb cb = .ok fr →
      fr.escrow.state = EscrowState.Funded ∧
      fr.custodyBalance = cb + e.amount) := by
  refine ⟨?_, ?_, ?_⟩
  · intro hok
    by_cases hm : mover = e.buyer
    · by_cases hs : e.state = EscrowState.Created
      · exact ⟨hs, hm⟩
      · simp [fund_escrow, hm, hs, opOk] at hok
    · simp [fund_escrow, hm, opOk] at hok
  · intro hm hs
    simp [fund_escrow, hm, hs]
  · intro fr hfr
    simp only [fund_escrow] at hfr
    split at hfr
    · split at hfr
      · split at hfr
        · injection hfr with hfr
          subst hfr
          exact ⟨rfl, rfl⟩
        · exact Except.noConfusion hfr
      · exact Except.noConfusion hfr
    · exact Except.noConfusion hfr

/-- C8 witness: funding the concrete created escrow (amount 5) by its buyer 1
with buyer balance 50 and custody balance 7 yields state Funded and custody
balance 12 = 7 + 5; funding the released escrow by its buyer fails with
`InvalidState`. -/
theorem fund_guards_witness :
    (({ escrowC with state := EscrowState.Funded } : Escrow).state =
        EscrowState.Funded ∧ (12 : Nat) = 7 + escrowC.amount) ∧
    fund_escrow escrowR 1 50 7 = .error (.escrowErr .InvalidState) :=
  ⟨(fund_guards escrowC 1 50 7).2.2
      ⟨{ escrowC with state := EscrowState.Funded }, 45, 12⟩ (by decide),
   (fund_guards escrowR 1 50 7).2.1 (by decide) (by decide)⟩

/-- C9 (amended): create with amount > 0 and timeout_period > 0 succeeds and
yields the record in state Created; with amount = 0 it fails with
`InvalidAmount`; with amount > 0 and timeout_period ≤ 0 it fails with
`InvalidTimeout` (the amount is validated first); in either failure case no
record is produced. -/
theorem create_validation (b s a : Pubkey) (amt : Nat) (t now : Int)
    (bp : Nat) :
    (0 < amt → 0 < t →
      initialize_escrow b s a amt t now bp = .ok
        { buyer := b, seller := s,
          arbiter := if a = b then none else some a, amount := amt,
          created_at := now, timeout_period := t,
          state := EscrowState.Created, bump := bp }) ∧
    (amt = 0 →
      initialize_escrow b s a amt t now bp =
        .error (.escrowErr .InvalidAmount)) ∧
    (0 < amt → t ≤ 0 →
      initialize_escrow b s a amt t now bp =
        .error (.escrowErr .InvalidTimeout)) := by
  refine ⟨?_, ?_, ?_⟩
  · intro ha ht
    simp [initialize_escrow, ha, ht]
  · intro ha
    simp [initialize_escrow, ha]
  · intro ha ht
    simp [initialize_escrow, ha, not_lt.mpr ht]

/-- C9 witness: create with buyer 1, seller 2, arbiter 3, amount 5, timeout
100 at time 0 succeeds with the expected Created record; create with amount 0
fails with `InvalidAmount`; create with timeout 0 (amount 5) fails with
`InvalidTimeout`. -/
theorem create_validation_witness :
    initialize_escrow 1 2 3 5 100 0 0 = .ok
      { buyer := 1, seller := 2, arbiter := if 3 = 1 then none else some 3,
        amount := 5, created_at := 0, timeout_period := 100,
        state := EscrowState.Created, bump := 0 } ∧
    initialize_escrow 1 2 3 0 100 0 0 = .error (.escrowErr .InvalidAmount) ∧
    initialize_escrow 1 2 3 5 0 0 0 = .error (.escrowErr .InvalidTimeout) :=
  ⟨(create_validation 1 2 3 5 100 0 0).1 (by decide) (by decide),
   (create_validation 1 2 3 0 100 0 0).2.1 rfl,
   (create_validation 1 2 3 5 0 0 0).2.2 (by decide) (by decide)⟩

/-- The escrow record produced by create(buyer b, seller s, arbiter s) with
the given state: arbiter stored as `some s`. -/
def mkSellerArbiter (b s : Pubkey) (amt : Nat) (t now : Int) (bp : Nat)
    (st : EscrowState) : Escrow :=
  { buyer := b, seller := s, arbiter := some s, amount := amt,
    created_at := now, timeout_period := t, state := st, bump := bp }

/-- C6: normalization applies only to an arbiter equal to the buyer — create
called with the arbiter equal to the seller (distinct from the buyer) stores
`some s`; funding that record succeeds, and the seller is then authorized as
arbiter to both release and refund at any time, including before the timeout
has elapsed (`now2 - now < t`). -/
theorem arbiter_equal_seller_stored (b s sa ba : Pubkey) (amt : Nat)
    (t now now2 : Int) (bp bb cb bal r : Nat) (hsb : ¬ s = b)
    (hamt : 0 < amt) (ht : 0 < t) (hbb : amt ≤ bb)
    (hearly : now2 - now < t) :
    initialize_escrow b s s amt t now bp =
      .ok (mkSellerArbiter b s amt t now bp EscrowState.Created) ∧
    fund_escrow (mkSellerArbiter b s amt t now bp EscrowState.Created)
        b bb cb =
      .ok ⟨mkSellerArbiter b s amt t now bp EscrowState.Funded,
           bb - amt, cb + amt⟩ ∧
    opOk (release_to_seller (mkSellerArbiter b s amt t now bp
      EscrowState.Funded) sa s now2 bal r) = true ∧
    opOk (refund_to_buyer (mkSellerArbiter b s amt t now bp
      EscrowState.Funded) ba s bal r) = true := by
  refine ⟨?_, ?_, ?_, ?_⟩
  · simp [initialize_escrow, mkSellerArbiter, hamt, ht, hsb]
  · simp [fund_escrow, mkSellerArbiter, hbb]
  · simp [release_to_seller, releaseAuthorized, arbiterMatches,
      mkSellerArbiter, opOk]
  · simp [refund_to_buyer, refundAuthorized, arbiterMatches,
      mkSellerArbiter, opOk]

/-- C6 witness: create(buyer 1, seller 2, arbiter 2, amount 5, timeout 100)
at time 0 stores arbiter `some 2`; funding by buyer 1 succeeds; seller 2
releases and refunds at time 10, well before the timeout. -/
theorem arbiter_equal_seller_stored_witness :
    initialize_escrow 1 2 2 5 100 0 0 =
      .ok (mkSellerArbiter 1 2 5 100 0 0 EscrowState.Created) ∧
    fund_escrow (mkSellerArbiter 1 2 5 100 0 0 EscrowState.Created) 1 10 3 =
      .ok ⟨mkSellerArbiter 1 2 5 100 0 0 EscrowState.Funded, 5, 8⟩ ∧
    opOk (release_to_seller (mkSellerArbiter 1 2 5 100 0 0
      EscrowState.Funded) 2 2 10 1000 40) = true ∧
    opOk (refund_to_buyer (mkSellerArbiter 1 2 5 100 0 0
      EscrowState.Funded) 1 2 1000 40) = true :=
  arbiter_equal_seller_stored 1 2 2 1 5 100 0 10 0 10 3 1000 40
    (by decide) (by decide) (by decide) (by decide) (by decide)

/-- C10: the error `TimeoutNotReached` is declared in the taxonomy but no
operation ever returns it; in particular a seller (distinct from the buyer
and not matching the arbiter) calling release before the timeout has elapsed
is rejected with `UnauthorizedOperation`, not `TimeoutNotReached`. -/
theorem timeout_error_unreachable :
    (∀ b s a amt t now bp, initialize_escrow b s a amt t now bp ≠
      .error (.escrowErr .TimeoutNotReached)) ∧
    (∀ e mover bb cb, fund_escrow e mover bb cb ≠
      .error (.escrowErr .TimeoutNotReached)) ∧
    (∀ e sa caller now b r, release_to_seller e sa caller now b r ≠
      .error (.escrowErr .TimeoutNotReached)) ∧
    (∀ e ba caller b r, refund_to_buyer e ba caller b r ≠
      .error (.escrowErr .TimeoutNotReached)) ∧
    (∀ e caller, cancel_escrow e caller ≠
      .error (.escrowErr .TimeoutNotReached)) ∧
    (∀ e sa now b r, e.state = EscrowState.Funded → ¬ e.seller = e.buyer →
      arbiterMatches e.arbiter e.seller = false →
      now - e.created_at < e.timeout_period →
      release_to_seller e sa e.seller now b r =
        .error (.escrowErr .UnauthorizedOperation)) := by
  refine ⟨?_, ?_, ?_, ?_, ?_, ?_⟩
  · intro b s a amt t now bp
    simp only [initialize_escrow]
    split_ifs <;> simp
  · intro e mover bb cb
    simp only [fund_escrow]
    split_ifs <;> simp
  · intro e sa caller now b r
    simp only [release_to_seller]
    split_ifs <;> simp
  · intro e ba caller b r
    simp only [refund_to_buyer]
    split_ifs <;> simp
  · intro e caller
    simp only [cancel_escrow]
    split_ifs <;> simp
  · intro e sa now b r hf hsb harb htime
    have hA : releaseAuthorized e e.seller now = false := by
      simp [releaseAuthorized, hsb, harb]
      omega
    simp [release_to_seller, hf, hA]

/-- C10 witness: on the concrete funded escrow (created at 0, timeout 3600,
no arbiter), the seller 2 releasing at time 0 is rejected with
`UnauthorizedOperation`. -/
theorem timeout_error_unreachable_witness :
    release_to_seller escrowF 2 2 0 1000 100 =
      .error (.escrowErr .UnauthorizedOperation) :=
  timeout_error_unreachable.2.2.2.2.2 escrowF 2 0 1000 100
    (by decide) (by decide) (by decide) (by decide)
